import Mathlib

/-!
Verification development for the Tech-Gear-Server repository: a shallow
embedding of the request pipeline (CORS decision, validation middleware,
authentication middleware, route handlers) together with theorems about
the behaviour the specification describes.

The JavaScript dynamic values that flow through `req.body` are embedded by
the inductive `JSValue`; numbers are embedded by `JNum`, which separates
`NaN` from ordinary numeric values — the code performs no floating-point
arithmetic, only coercion, `isNaN` and order comparison, so an exact
decimal carrier (integer mantissa with a power-of-ten scale) is faithful.
String primitives (trim, lower-casing, splitting, affix tests) are defined
here by structural recursion over the character list of the string, so
that every definition evaluates by kernel reduction.
-/

/-- Characters of a string. -/
def chars (s : String) : List Char := s.data

/-- String built from a character list. -/
def ofChars (l : List Char) : String := ⟨l⟩

/-- Leading- and trailing-whitespace removal on character lists. -/
def trimChars (l : List Char) : List Char :=
  ((l.dropWhile Char.isWhitespace).reverse.dropWhile Char.isWhitespace).reverse

/-- JavaScript `s.trim()`. -/
def jsTrim (s : String) : String := ofChars (trimChars (chars s))

/-- JavaScript `s.toLowerCase()` on the fragment in use (ASCII folding). -/
def jsToLower (s : String) : String := ofChars ((chars s).map Char.toLower)

/-- Split of a character list at every occurrence of a separator. -/
def splitChars (sep : Char) : List Char → List (List Char)
  | [] => [[]]
  | c :: rest =>
    if c = sep then [] :: splitChars sep rest
    else
      match splitChars sep rest with
      | [] => [[c]]
      | h :: t => (c :: h) :: t

/-- JavaScript `s.split(sep)` for a one-character separator (the only form
the source uses: `' '`, `','`). -/
def jsSplitOn (sep : Char) (s : String) : List String :=
  (splitChars sep (chars s)).map ofChars

/-- First list is a leading segment of the second. -/
def charsStart : List Char → List Char → Bool
  | [], _ => true
  | _ :: _, [] => false
  | p :: ps, c :: cs => p = c && charsStart ps cs

/-- JavaScript `s.startsWith(pat)`. -/
def jsStartsWith (s pat : String) : Bool := charsStart (chars pat) (chars s)

/-- JavaScript `s.endsWith(pat)`. -/
def jsEndsWith (s pat : String) : Bool :=
  charsStart (chars pat).reverse (chars s).reverse

/-- JavaScript number: NaN, or the exact decimal value `m / 10^e`.  The
source performs no arithmetic on numbers — only coercion, `isNaN`, sign
and bound comparisons and storage — so the decimal pair is a faithful
exact carrier for every number the program constructs. -/
inductive JNum where
  | nan : JNum
  | num (m : ℤ) (e : ℕ) : JNum
deriving DecidableEq, Repr

/-- JavaScript runtime value as it can appear in a JSON request body or a
destructured field: `undefined`, `null`, booleans, numbers, strings. -/
inductive JSValue where
  | undef : JSValue
  | null : JSValue
  | bool (b : Bool) : JSValue
  | numv (n : JNum) : JSValue
  | str (s : String) : JSValue
deriving DecidableEq, Repr

/-- JavaScript truthiness: `undefined`, `null`, `false`, `0`, `NaN` and the
empty string are falsy, everything else truthy. -/
def truthy : JSValue → Bool
  | .undef => false
  | .null => false
  | .bool b => b
  | .numv .nan => false
  | .numv (.num m _) => m != 0
  | .str s => s != ""

/-- JavaScript `a || b`: the first operand if truthy, else the second. -/
def jsOr (a b : JSValue) : JSValue :=
  if truthy a then a else b

/-- True on the list of characters exactly when every one is a decimal digit. -/
def allDigits (l : List Char) : Bool :=
  l.all Char.isDigit

/-- Numeric value of a list of decimal digits, most significant first. -/
def digitsToNat (l : List Char) : Nat :=
  l.foldl (fun n c => n * 10 + (c.toNat - 48)) 0

/-- Model of the JavaScript `Number(string)` coercion on the decimal
fragment the program can meet: leading/trailing whitespace is ignored, the
empty (or all-whitespace) string coerces to 0, an optional sign followed
by decimal digits with an optional fractional part yields that value, and
anything else yields NaN.  (Hex/exponent/`Infinity` forms of the full
JavaScript grammar are outside the fragment and map to NaN here.) -/
def strToNum (s : String) : JNum :=
  let t := trimChars (chars s)
  if t = [] then .num 0 0
  else
    let (sg, ds) : ℤ × List Char :=
      match t with
      | '-' :: r => (-1, r)
      | '+' :: r => (1, r)
      | r => (1, r)
    match splitChars '.' ds with
    | [w] =>
      if w ≠ [] ∧ allDigits w then .num (sg * digitsToNat w) 0 else .nan
    | [w, f] =>
      if (w ≠ [] ∨ f ≠ []) ∧ allDigits w ∧ allDigits f then
        .num (sg * (digitsToNat w * 10 ^ f.length + digitsToNat f)) f.length
      else .nan
    | _ => .nan

/-- Model of the JavaScript `Number(value)` coercion. -/
def toNumber : JSValue → JNum
  | .undef => .nan
  | .null => .num 0 0
  | .bool b => .num (if b then 1 else 0) 0
  | .numv n => n
  | .str s => strToNum s

/-- Whether a `JNum` is NaN (the global `isNaN` applied to a number). -/
def JNum.isNaN : JNum → Bool
  | .nan => true
  | .num _ _ => false

/-- JavaScript `n < k` for a number against an integer constant: false
when `n` is NaN (`m / 10^e < k ↔ m < k * 10^e`). -/
def JNum.ltC : JNum → ℤ → Bool
  | .nan, _ => false
  | .num m e, k => m < k * 10 ^ e

/-- JavaScript `n > k` for a number against an integer constant: false
when `n` is NaN. -/
def JNum.gtC : JNum → ℤ → Bool
  | .nan, _ => false
  | .num m e, k => m > k * 10 ^ e

/-- JavaScript `value.length` as used on the password field: the length of
a string, and `undefined` (embedded as NaN, so every comparison is false)
on every non-string value. -/
def lenOf : JSValue → JNum
  | .str s => .num s.length 0
  | _ => .nan

/-- Request body: a JSON object, embedded as an association list from
property names to values (first binding wins, as property lookup does). -/
abbrev Body := List (String × JSValue)

/-- Property read `body[k]`: the first binding of `k`, `undefined` if none. -/
def bget (k : String) : Body → JSValue
  | [] => .undef
  | (k', v) :: rest => if k' = k then v else bget k rest

/-- Property write `body[k] = v`: replaces the first binding of `k`, or
appends a fresh binding when the property is absent. -/
def bset (k : String) (v : JSValue) : Body → Body
  | [] => [(k, v)]
  | (k', v') :: rest => if k' = k then (k, v) :: rest else (k', v') :: bset k v rest

theorem bget_bset_same (k : String) (v : JSValue) (b : Body) :
    bget k (bset k v b) = v := by
  induction b with
  | nil => simp [bget, bset]
  | cons hd tl ih =>
    obtain ⟨k', v'⟩ := hd
    by_cases h : k' = k <;> simp [bget, bset, h, ih]

theorem bget_bset_ne (k k' : String) (v : JSValue) (b : Body) (h : k ≠ k') :
    bget k' (bset k v b) = bget k' b := by
  induction b with
  | nil => simp [bget, bset, h]
  | cons hd tl ih =>
    obtain ⟨k₀, v₀⟩ := hd
    by_cases h₀ : k₀ = k
    · subst h₀
      simp [bget, bset, h]
    · simp only [bset, if_neg h₀]
      by_cases h₁ : k₀ = k' <;> simp [bget, h₁, ih]

/-- Model of the WHATWG `new URL(s)` constructor succeeding, on the
fragment distinguishable by this server: the string must begin with a
non-empty all-letter scheme followed by `:` and at least one further
character.  (The constructor is a host builtin; only its success/failure
is observable in `validateProduct`.) -/
def urlParses (s : String) : Bool :=
  match splitChars ':' (chars s) with
  | scheme :: rest :: more =>
    scheme ≠ [] && scheme.all Char.isAlpha && (rest ≠ [] || more ≠ [])
  | _ => false

/-- True when no character of the list is whitespace. -/
def noWhitespace (l : List Char) : Bool :=
  l.all (fun c => !c.isWhitespace)

/-- True when the list contains a `'.'` that is not its last element. -/
def dotNotLast : List Char → Bool
  | [] => false
  | [_] => false
  | c :: rest => (c = '.') || dotNotLast rest

/-- Embedding of the registration email regular expression
`^[^\s@]+@[^\s@]+\.[^\s@]+$`: the whole string is `local@domain` with
exactly one `@`, both parts non-empty and whitespace-free, and the domain
contains a `.` with at least one character on each side. -/
def emailOk (s : String) : Bool :=
  match splitChars '@' (chars s) with
  | [a, b] =>
    a ≠ [] && noWhitespace a && b ≠ [] && noWhitespace b &&
      (match b with
       | [] => false
       | _ :: rest => dotNotLast rest)
  | _ => false

/-- True on hexadecimal digit characters. -/
def isHexChar (c : Char) : Bool :=
  c.isDigit || ('a' ≤ c && c ≤ 'f') || ('A' ≤ c && c ≤ 'F')

/-- Embedding of `mongoose.Types.ObjectId.isValid` on route-parameter
strings: a 24-character hexadecimal string, or any 12-character string
(interpreted as 12 raw bytes). -/
def isValidObjectId (s : String) : Bool :=
  s.length = 12 || (s.length = 24 && (chars s).all isHexChar)

/-- Anchored regex-fragment match: the pattern (literal characters plus the
`.` metacharacter, which matches any single character) matches a prefix of
the text. -/
def reMatchHere : List Char → List Char → Bool
  | [], _ => true
  | _ :: _, [] => false
  | p :: ps, c :: cs => (p = '.' || p = c) && reMatchHere ps cs

/-- Unanchored regex-fragment search: the pattern matches at some position
of the text. -/
def reSearch (ps : List Char) : List Char → Bool
  | [] => reMatchHere ps []
  | c :: cs => reMatchHere ps (c :: cs) || reSearch ps cs

/-- Modelled from the spec: the document store is an opaque collaborator
(its driver is not under src/), so its case-insensitive `$regex` title
filter (`{ $regex: search, $options: 'i' }`) is modelled as an unanchored,
case-folded match of the pattern, on the fragment of literal characters
plus the `.` metacharacter — enough to exhibit that metacharacters are
interpreted rather than matched literally. -/
def mongoRegexMatch (pattern text : String) : Bool :=
  reSearch (chars (jsToLower pattern)) (chars (jsToLower text))

/-- Outcome of running a validation middleware on a request body:
a short-circuiting rejection response, an uncaught thrown exception
(escaping to the framework's error handler), or acceptance with the
(possibly mutated) body passed to the next stage. -/
inductive VRes where
  | reject (status : Nat) (message : String) : VRes
  | thrown : VRes
  | accept (body : Body) : VRes
deriving DecidableEq, Repr

/-- Embedding of `validateProduct` (src/middleware/validation.js, lines
3–52), following the source's check order and messages exactly.  A method
call `x.trim()` on a truthy non-string value is an uncaught TypeError and
is embedded as `.thrown`. -/
def validateProduct (body : Body) : VRes :=
  if ¬ truthy (bget "title" body) then .reject 400 "Product title is required"
  else match bget "title" body with
  | .str ts =>
    if jsTrim ts = "" then .reject 400 "Product title is required"
    else if bget "price" body = .undef ∨ bget "price" body = .null then
      .reject 400 "Product price is required"
    else if (toNumber (bget "price" body)).isNaN ∨ (toNumber (bget "price" body)).ltC 0 then
      .reject 400 "Price must be a positive number"
    else if ¬ truthy (bget "description" body) then .reject 400 "Product description is required"
    else match bget "description" body with
    | .str ds =>
      if jsTrim ds = "" then .reject 400 "Product description is required"
      else if ¬ truthy (bget "image" body) then .reject 400 "Product image URL is required"
      else match bget "image" body with
      | .str img =>
        if jsTrim img = "" then .reject 400 "Product image URL is required"
        else if ¬ urlParses img then .reject 400 "Invalid image URL format"
        else if ts.length > 200 then .reject 400 "Title must be less than 200 characters"
        else if ds.length > 2000 then .reject 400 "Description must be less than 2000 characters"
        else .accept (bset "price" (.numv (toNumber (bget "price" body)))
          (bset "image" (.str (jsTrim img))
            (bset "description" (.str (jsTrim ds))
              (bset "title" (.str (jsTrim ts)) body))))
      | _ => .thrown
    | _ => .thrown
  | _ => .thrown

/-- Embedding of `validateUserRegistration` (src/middleware/validation.js,
lines 54–99), following the source's check order and messages exactly.
`password.length` on a non-string is `undefined`, so both length
comparisons are false (embedded via `lenOf`). -/
def validateUserRegistration (body : Body) : VRes :=
  if ¬ truthy (bget "name" body) then .reject 400 "Name is required"
  else match bget "name" body with
  | .str ns =>
    if jsTrim ns = "" then .reject 400 "Name is required"
    else if ¬ truthy (bget "email" body) then .reject 400 "Email is required"
    else match bget "email" body with
    | .str es =>
      if jsTrim es = "" then .reject 400 "Email is required"
      else if ¬ truthy (bget "password" body) then .reject 400 "Password is required"
      else if ¬ emailOk es then .reject 400 "Invalid email format"
      else if (lenOf (bget "password" body)).ltC 6 then
        .reject 400 "Password must be at least 6 characters long"
      else if (lenOf (bget "password" body)).gtC 100 then
        .reject 400 "Password must be less than 100 characters"
      else if (jsTrim ns).length < 2 then .reject 400 "Name must be at least 2 characters long"
      else if (jsTrim ns).length > 100 then .reject 400 "Name must be less than 100 characters"
      else .accept (bset "email" (.str (jsToLower (jsTrim es)))
        (bset "name" (.str (jsTrim ns)) body))
    | _ => .thrown
  | _ => .thrown

/-- Payload of a successfully verified JWT, as the code reads it: the
`id` and `sub` properties (either may be absent, i.e. `undefined`). -/
structure Decoded where
  id : JSValue
  sub : JSValue
deriving DecidableEq, Repr

/-- Modelled from the spec: the `User` model file (models/User.js) is not
under src/; per the spec's data model a stored user record carries an
opaque unique id, `name`, `email`, a hashed `password`, a derived avatar
`image`, and an optional `role`. -/
structure UserRec where
  uid : String
  name : String
  email : String
  password : String
  role : Option String
  image : String
deriving DecidableEq, Repr

/-- Storage operations a request can issue against the document store;
each constructor marks one call site in the source. -/
inductive StorageOp where
  | findProducts (search : Option String) : StorageOp
  | findProductById (id : String) : StorageOp
  | saveProduct (b : Body) : StorageOp
  | deleteProductById (id : String) : StorageOp
  | updateProductById (id : String) (b : Body) : StorageOp
  | findUserById (key : JSValue) : StorageOp
  | findUserByEmail (email : JSValue) : StorageOp
  | saveUser (u : UserRec) : StorageOp
deriving DecidableEq, Repr

/-- Modelled from the spec: state of the opaque document store — a product
collection (id/document pairs, ids assigned by the store) and a user
collection. -/
structure DB where
  products : List (String × Body)
  users : List UserRec
deriving DecidableEq, Repr

/-- Modelled from the spec: `User.findById(key)` — lookup of the user
record whose id equals the given key; a non-string key (an absent `id`
and `sub` in the token) matches no record. -/
def findUserByIdVal (users : List UserRec) (key : JSValue) : Option UserRec :=
  match key with
  | .str s => users.find? (fun u => u.uid = s)
  | _ => none

/-- Outcome of the authentication middleware. -/
inductive AuthRes where
  | unauthorized (message : String) : AuthRes
  | ok (id email role : String) : AuthRes
deriving DecidableEq, Repr

/-- Embedding of `verifyAuth` (middleware/auth.js): header presence and
`Bearer ` shape, token extraction via `split(' ')[1]`, token verification
(the `jsonwebtoken` library is abstracted as the oracle `verify`, `none`
meaning the library throws — invalid signature or expired), then re-fetch
of the user by `decoded.id || decoded.sub`; a missing user is rejected.
Also returns the storage operations issued. -/
def verifyAuth (authHeader : Option String) (verify : String → Option Decoded)
    (users : List UserRec) : AuthRes × List StorageOp :=
  match authHeader with
  | none => (.unauthorized "Unauthorized: No token provided", [])
  | some h =>
    if ¬ jsStartsWith h "Bearer " then (.unauthorized "Unauthorized: No token provided", [])
    else
      let token := (jsSplitOn ' ' h).getD 1 ""
      if token = "" then (.unauthorized "Unauthorized: Invalid token", [])
      else match verify token with
      | none => (.unauthorized "Unauthorized: Invalid or expired token", [])
      | some d =>
        let key := jsOr d.id d.sub
        match findUserByIdVal users key with
        | none => (.unauthorized "Unauthorized: User not found", [.findUserById key])
        | some u =>
          (.ok u.uid u.email (if u.role.getD "user" = "" then "user" else u.role.getD "user"),
            [.findUserById key])

/-- HTTP response as the handlers produce it: a JSON message, a product
list, or a single product document. -/
inductive Resp where
  | msg (status : Nat) (message : String) : Resp
  | plist (status : Nat) (ps : List (String × Body)) : Resp
  | pdoc (status : Nat) (id : String) (b : Body) : Resp
deriving DecidableEq, Repr

/-- Status code of a response. -/
def respStatus : Resp → Nat
  | .msg s _ => s
  | .plist s _ => s
  | .pdoc s _ _ => s

/-- Embedding of the readiness poll loop in the GET /products handler:
`while (readyState !== 1 && attempts < 10) { sleep(500); attempts++ }`.
`rs i` is the connection's readyState observed at the i-th check, and the
result is the final value of `attempts`. -/
def pollLoop (rs : Nat → Nat) : Nat → Nat → Nat
  | 0, attempts => attempts
  | fuel + 1, attempts =>
    if rs attempts ≠ 1 ∧ attempts < 10 then pollLoop rs fuel (attempts + 1) else attempts

/-- True when the product document's `title` matches the search pattern
under the store's case-insensitive regex semantics. -/
def titleMatches (search : String) (b : Body) : Bool :=
  match bget "title" b with
  | .str t => mongoRegexMatch search t
  | _ => false

/-- Embedding of the GET /products handler (src/index.js): reconnect
attempt when disconnected (connection establishment itself is part of the
`rs` trace), bounded readiness polling, 503 when still not ready, else a
find over all products or over those whose title matches the search
pattern.  Issues no storage operation on the 503 path. -/
def getProducts (rs : Nat → Nat) (search : Option String) (st : DB) :
    Resp × List StorageOp :=
  let a := pollLoop rs 10 0
  if rs a ≠ 1 then
    (.msg 503 "Database connection unavailable. Please try again later.", [])
  else
    match search with
    | some s =>
      if s ≠ "" then
        (.plist 200 (st.products.filter (fun p => titleMatches s p.2)), [.findProducts (some s)])
      else (.plist 200 st.products, [.findProducts none])
    | none => (.plist 200 st.products, [.findProducts none])

/-- Embedding of the GET /products/:id handler (src/index.js): a single
readiness check (503 when readyState is not 1) — performed BEFORE the
ObjectId-format validation — then the id lookup. -/
def getProductById (readyState : Nat) (idp : String) (st : DB) :
    Resp × List StorageOp :=
  if readyState ≠ 1 then
    (.msg 503 "Database connection unavailable. Please try again later.", [])
  else if ¬ isValidObjectId idp then (.msg 400 "Invalid product ID format", [])
  else
    match st.products.find? (fun p => p.1 = idp) with
    | none => (.msg 404 "Product not found", [.findProductById idp])
    | some p => (.pdoc 200 p.1 p.2, [.findProductById idp])

/-- Embedding of the POST /products route (rate limiter → verifyAuth →
validateProduct → handler).  The handler never consults the connection
readyState (the parameter is deliberately unused, mirroring the source);
a thrown validation exception reaches the framework's default error
handler (500).  `newId` is the id the store assigns to the saved document. -/
def postProducts (readyState : Nat) (rateLimited : Bool) (authHeader : Option String)
    (verify : String → Option Decoded) (body : Body) (newId : String) (st : DB) :
    Resp × List StorageOp × DB :=
  if rateLimited then (.msg 429 "Too many requests", [], st)
  else match verifyAuth authHeader verify st.users with
  | (.unauthorized m, ops) => (.msg 401 m, ops, st)
  | (.ok _ _ _, ops) =>
    match validateProduct body with
    | .reject s m => (.msg s m, ops, st)
    | .thrown => (.msg 500 "Internal Server Error", ops, st)
    | .accept b =>
      (.pdoc 201 newId b, ops ++ [.saveProduct b],
        { st with products := st.products ++ [(newId, b)] })

/-- Merge of an update body into an existing document
(`findByIdAndUpdate(id, body)` performs a field-wise set). -/
def mergeBody (orig b : Body) : Body :=
  b.foldl (fun acc kv => bset kv.1 kv.2 acc) orig

/-- Embedding of the PUT /products/:id route (rate limiter → verifyAuth →
validateProduct → handler): id-format check after validation, then
`findByIdAndUpdate`.  The handler never consults the connection
readyState. -/
def putProduct (readyState : Nat) (rateLimited : Bool) (authHeader : Option String)
    (verify : String → Option Decoded) (idp : String) (body : Body) (st : DB) :
    Resp × List StorageOp × DB :=
  if rateLimited then (.msg 429 "Too many requests", [], st)
  else match verifyAuth authHeader verify st.users with
  | (.unauthorized m, ops) => (.msg 401 m, ops, st)
  | (.ok _ _ _, ops) =>
    match validateProduct body with
    | .reject s m => (.msg s m, ops, st)
    | .thrown => (.msg 500 "Internal Server Error", ops, st)
    | .accept b =>
      if ¬ isValidObjectId idp then (.msg 400 "Invalid product ID format", ops, st)
      else
        match st.products.find? (fun p => p.1 = idp) with
        | none => (.msg 404 "Product not found", ops ++ [.updateProductById idp b], st)
        | some p =>
          (.pdoc 200 idp (mergeBody p.2 b), ops ++ [.updateProductById idp b],
            { st with products :=
                st.products.map (fun q => if q.1 = idp then (idp, mergeBody p.2 b) else q) })

/-- Embedding of the DELETE /products/:id route (rate limiter → verifyAuth
→ handler): id-format check, then `findByIdAndDelete`.  The handler never
consults the connection readyState. -/
def deleteProduct (readyState : Nat) (rateLimited : Bool) (authHeader : Option String)
    (verify : String → Option Decoded) (idp : String) (st : DB) :
    Resp × List StorageOp × DB :=
  if rateLimited then (.msg 429 "Too many requests", [], st)
  else match verifyAuth authHeader verify st.users with
  | (.unauthorized m, ops) => (.msg 401 m, ops, st)
  | (.ok _ _ _, ops) =>
    if ¬ isValidObjectId idp then (.msg 400 "Invalid product ID format", ops, st)
    else
      match st.products.find? (fun p => p.1 = idp) with
      | none => (.msg 404 "Product not found", ops ++ [.deleteProductById idp], st)
      | some _ =>
        (.msg 200 "Product deleted successfully", ops ++ [.deleteProductById idp],
          { st with products := st.products.filter (fun p => p.1 ≠ idp) })

/-- Embedding of the POST /register route (auth rate limiter →
validateUserRegistration → handler): duplicate pre-check by exact match on
the (validated, lowercased) email, then hash (the bcrypt library is
abstracted as `hash`) and insert.  `enc` abstracts `encodeURIComponent`
in the derived avatar URL; `newId` is the id the store assigns.  The
handler never consults the connection readyState. -/
def registerUser (readyState : Nat) (rateLimited : Bool) (body : Body)
    (hash : JSValue → String) (enc : String → String) (newId : String) (st : DB) :
    Resp × List StorageOp × DB :=
  if rateLimited then (.msg 429 "Too many requests", [], st)
  else match validateUserRegistration body with
  | .reject s m => (.msg s m, [], st)
  | .thrown => (.msg 500 "Internal Server Error", [], st)
  | .accept b =>
    let emailv := bget "email" b
    let found : Option UserRec :=
      match emailv with
      | .str e => st.users.find? (fun u => u.email = e)
      | _ => none
    match found with
    | some _ => (.msg 400 "User already exists", [.findUserByEmail emailv], st)
    | none =>
      let nameS := match bget "name" b with | .str n => n | _ => ""
      let emailS := match emailv with | .str e => e | _ => ""
      let newUser : UserRec :=
        { uid := newId, name := nameS, email := emailS,
          password := hash (bget "password" b), role := none,
          image := "https://ui-avatars.com/api/?name=" ++ enc nameS ++ "&background=random" }
      (.msg 201 "User created successfully",
        [.findUserByEmail emailv, .saveUser newUser],
        { st with users := st.users ++ [newUser] })

/-- CORS decision outcome: allow, or deny with the diagnostic log line the
code emits. -/
inductive CorsDecision where
  | allow : CorsDecision
  | deny (logged : String) : CorsDecision
deriving DecidableEq, Repr

/-- The three hardcoded local development origins of the CORS policy. -/
def defaultOrigins : List String :=
  ["http://localhost:3000", "http://localhost:3001", "http://localhost:3002"]

/-- Allow-list derived from the `ALLOWED_ORIGINS` environment value:
comma-separated and trimmed; empty when the variable is unset. -/
def allowedOriginsOf (env : Option String) : List String :=
  match env with
  | none => []
  | some s => (jsSplitOn ',' s).map jsTrim

/-- Embedding of the CORS origin decision function (src/index.js,
`corsOptions.origin`).  The JS guard `if (!origin)` covers both an absent
origin header (`undefined`) and a present-but-empty one (`""`), as both
are falsy; its only effects are the outcome and a log line on denial. -/
def corsDecide (env : Option String) (origin : Option String) : CorsDecision :=
  match origin with
  | none => .allow
  | some o =>
    if o = "" then .allow
    else
      let allowedOrigins := allowedOriginsOf env
      let isAllowed :=
        allowedOrigins.contains o || defaultOrigins.contains o || jsEndsWith o ".vercel.app"
      if isAllowed then .allow else .deny ("Blocked by CORS: " ++ o)

/-- A value on which the JavaScript string methods used by the validators
cannot throw: either an actual string, or falsy (short-circuited before
any method call). -/
def strOrFalsy (v : JSValue) : Prop :=
  (∃ s, v = .str s) ∨ truthy v = false

/-- A price value that is negative or non-numeric in the sense of the
code's own coercion: `Number(price)` is NaN, or is negative. -/
def badPrice (v : JSValue) : Prop :=
  (toNumber v).isNaN = true ∨ (toNumber v).ltC 0 = true

/-- The CORS allow-condition exactly as the claim words it: no origin
header, or membership in the trimmed comma-separated allow-list, or one of
the three hardcoded localhost origins, or the `.vercel.app` suffix. -/
def corsSpecAllows (env : Option String) (origin : Option String) : Prop :=
  origin = none ∨
    ∃ o, origin = some o ∧
      (o ∈ allowedOriginsOf env ∨ o ∈ defaultOrigins ∨ jsEndsWith o ".vercel.app" = true)

/-- Verification oracle used by the concrete witnesses: exactly the token
"tok" verifies, to subject id "u1". -/
def cverify : String → Option Decoded :=
  fun t => if t = "tok" then some ⟨.str "u1", .undef⟩ else none

/-- Concrete stored user for the witnesses. -/
def cuser : UserRec := ⟨"u1", "Jo", "jo@x.com", "h", none, ""⟩

/-- Concrete store for the witnesses. -/
def cdb : DB := ⟨[], [cuser]⟩

/-- Concrete valid product body (with an extra `brand` field) for the
witnesses. -/
def cGoodBody : Body :=
  [("title", .str " Hat "), ("price", .str "12.5"), ("description", .str "nice"),
    ("image", .str "https://x.com/a.png"), ("brand", .str "Sony")]

/-- The body `validateProduct` produces from `cGoodBody`. -/
def cGoodBodyV : Body :=
  [("title", .str "Hat"), ("price", .numv (.num 125 1)), ("description", .str "nice"),
    ("image", .str "https://x.com/a.png"), ("brand", .str "Sony")]

/-- C8 counterexample: the code allows a present-but-EMPTY `Origin` header
(`!origin` is true for the empty string), but the claim's allow-condition
(no header, allow-list, localhost defaults, or `.vercel.app` suffix) does
not cover it, so the claimed "if and only if" fails at `origin = ""` with
no configured allow-list. -/
theorem C8_cors_counterexample :
    corsDecide none (some "") = .allow ∧ ¬ corsSpecAllows none (some "") := by
  refine ⟨by decide, ?_⟩
  rintro (h | ⟨o, ho, h⟩)
  · exact Option.noConfusion h
  · injection ho with ho
    subst ho
    rcases h with h | h | h
    · simp [allowedOriginsOf] at h
    · simp [defaultOrigins] at h
    · exact absurd h (by decide)

/-- C8 amended: the CORS decision function allows a request if and only if
it has no origin header OR AN EMPTY ONE, or the origin is in the trimmed
comma-separated `ALLOWED_ORIGINS` list, or it is one of the three
hardcoded localhost origins, or it ends with ".vercel.app"; every other
origin is denied, and the decision's only other effect is the diagnostic
log line carried by the `deny` outcome. -/
theorem C8_cors_decision : ∀ (env origin : Option String),
    corsDecide env origin = .allow ↔ (corsSpecAllows env origin ∨ origin = some "") := by
  intro env origin
  cases origin with
  | none => simp [corsDecide, corsSpecAllows]
  | some o =>
    by_cases he : o = ""
    · subst he
      simp [corsDecide, corsSpecAllows]
    · simp only [corsDecide, if_neg he]
      constructor
      · intro h
        split at h
        · rename_i hcond
          simp only [Bool.or_eq_true, List.elem_eq_mem, decide_eq_true_eq] at hcond
          refine Or.inl (Or.inr ⟨o, rfl, ?_⟩)
          rcases hcond with (h1 | h2) | h3
          · exact Or.inl h1
          · exact Or.inr (Or.inl h2)
          · exact Or.inr (Or.inr h3)
        · exact absurd h (by simp)
      · rintro (h | h)
        · rcases h with h | ⟨o', ho', h⟩
          · exact Option.noConfusion h
          · injection ho' with ho'
            subst ho'
            simp only [List.elem_eq_mem, decide_eq_true_eq, Bool.or_eq_true]
            rw [if_pos]
            tauto
        · injection h with h
          exact absurd h he

/-- C6 counterexample: with the storage connection not ready (readyState
0), `GET /products/not-an-id` answers 503, not the claimed 400 — the
handler checks the connection BEFORE validating the id format, so the
claimed behaviour does not hold "regardless of the storage connection
state".  (No storage operation is executed either way.) -/
theorem C6_counterexample :
    getProductById 0 "not-an-id" ⟨[], []⟩ =
      (.msg 503 "Database connection unavailable. Please try again later.", []) ∧
    respStatus (getProductById 0 "not-an-id" ⟨[], []⟩).1 ≠ 400 := by
  exact ⟨by decide, by decide⟩

/-- C6 amended: for a request `GET /products/:id` whose id is not a valid
ObjectId format, WHEN THE CONNECTION IS READY (readyState 1) the response
is 400 "Invalid product ID format" with no storage operation; when the
connection is not ready the response is instead 503 — still with no
storage operation. -/
theorem C6_invalid_id (readyState : Nat) (idp : String) (st : DB)
    (hid : isValidObjectId idp = false) :
    (readyState = 1 →
      getProductById readyState idp st = (.msg 400 "Invalid product ID format", [])) ∧
    (readyState ≠ 1 →
      getProductById readyState idp st =
        (.msg 503 "Database connection unavailable. Please try again later.", [])) := by
  constructor
  · intro h
    subst h
    simp [getProductById, hid]
  · intro h
    simp [getProductById, h]

/-- C6 witness: the amended theorem applied at readyState 1, id
"not-an-id" and the empty store. -/
theorem C6_invalid_id_witness :
    (1 = 1 →
      getProductById 1 "not-an-id" ⟨[], []⟩ = (.msg 400 "Invalid product ID format", [])) ∧
    ((1 : Nat) ≠ 1 →
      getProductById 1 "not-an-id" ⟨[], []⟩ =
        (.msg 503 "Database connection unavailable. Please try again later.", [])) :=
  C6_invalid_id 1 "not-an-id" ⟨[], []⟩ (by decide)

/-- C7: a POST /products request (not rate limited) with no Authorization
header, or one that does not start with "Bearer ", is answered 401
"Unauthorized: No token provided", no storage operation is issued, and
the store is unchanged — no product document is created, whatever the
body. -/
theorem C7_post_requires_auth (readyState : Nat) (hdr : Option String)
    (verify : String → Option Decoded) (body : Body) (newId : String) (st : DB)
    (hhdr : hdr = none ∨ ∃ h, hdr = some h ∧ jsStartsWith h "Bearer " = false) :
    postProducts readyState false hdr verify body newId st =
      (.msg 401 "Unauthorized: No token provided", [], st) := by
  rcases hhdr with h | ⟨h, rfl, hs⟩
  · subst h
    simp [postProducts, verifyAuth]
  · simp [postProducts, verifyAuth, hs]

/-- C7 witness: the theorem applied to a header-less request carrying the
concrete valid product body. -/
theorem C7_post_requires_auth_witness :
    postProducts 1 false none cverify cGoodBody "p1" cdb =
      (.msg 401 "Unauthorized: No token provided", [], cdb) :=
  C7_post_requires_auth 1 none cverify cGoodBody "p1" cdb (Or.inl rfl)

theorem ite_ne_thrown {c : Prop} [Decidable c] {A B : VRes}
    (hA : A ≠ .thrown) (hB : B ≠ .thrown) : (if c then A else B) ≠ .thrown := by
  by_cases h : c
  · rwa [if_pos h]
  · rwa [if_neg h]

theorem truthy_false_not {v : JSValue} (hv : truthy v = false) : ¬ (truthy v = true) := by
  simp [hv]

theorem validateProduct_no_throw (b : Body)
    (h1 : strOrFalsy (bget "title" b)) (h2 : strOrFalsy (bget "description" b))
    (h3 : strOrFalsy (bget "image" b)) :
    validateProduct b ≠ .thrown := by
  rcases h1 with ⟨t, ht⟩ | ht
  · rcases h2 with ⟨d, hd⟩ | hd
    · rcases h3 with ⟨i, hi⟩ | hi
      · simp only [validateProduct, ht, hd, hi]
        repeat' apply ite_ne_thrown
        all_goals exact fun hx => VRes.noConfusion hx
      · simp only [validateProduct, ht, hd, if_pos (truthy_false_not hi)]
        repeat' apply ite_ne_thrown
        all_goals exact fun hx => VRes.noConfusion hx
    · simp only [validateProduct, ht, if_pos (truthy_false_not hd)]
      repeat' apply ite_ne_thrown
      all_goals exact fun hx => VRes.noConfusion hx
  · simp only [validateProduct, if_pos (truthy_false_not ht)]
    exact fun hx => VRes.noConfusion hx

theorem validateUserRegistration_no_throw (b : Body)
    (h1 : strOrFalsy (bget "name" b)) (h2 : strOrFalsy (bget "email" b)) :
    validateUserRegistration b ≠ .thrown := by
  rcases h1 with ⟨n, hn⟩ | hn
  · rcases h2 with ⟨e, he⟩ | he
    · simp only [validateUserRegistration, hn, he]
      repeat' apply ite_ne_thrown
      all_goals exact fun hx => VRes.noConfusion hx
    · simp only [validateUserRegistration, hn, if_pos (truthy_false_not he)]
      repeat' apply ite_ne_thrown
      all_goals exact fun hx => VRes.noConfusion hx
  · simp only [validateUserRegistration, if_pos (truthy_false_not hn)]
    exact fun hx => VRes.noConfusion hx

/-- C2 counterexample: a request body whose `title` (respectively `name`)
is the number 5 — truthy but not a string — makes `validateProduct`
(respectively `validateUserRegistration`) call `.trim()` on a number and
throw an uncaught TypeError instead of returning a decision, refuting the
claimed totality on bodies with unexpected field types. -/
theorem C2_counterexample :
    validateProduct [("title", .numv (.num 5 0))] = .thrown ∧
    validateUserRegistration [("name", .numv (.num 5 0))] = .thrown := by
  exact ⟨by decide, by decide⟩

/-- C2 amended: the two validators return a decision (a 400 rejection or
acceptance, never an uncaught exception) for every request body in which
each field accessed with a string method — `title`, `description`, `image`
for the product validator and `name`, `email` for the registration
validator — is either an actual string or falsy; a truthy non-string value
in one of those fields instead causes an uncaught TypeError. -/
theorem C2_validators_total (b : Body)
    (h1 : strOrFalsy (bget "title" b)) (h2 : strOrFalsy (bget "description" b))
    (h3 : strOrFalsy (bget "image" b)) (h4 : strOrFalsy (bget "name" b))
    (h5 : strOrFalsy (bget "email" b)) :
    validateProduct b ≠ .thrown ∧ validateUserRegistration b ≠ .thrown :=
  ⟨validateProduct_no_throw b h1 h2 h3, validateUserRegistration_no_throw b h4 h5⟩

/-- C2 witness: the totality theorem applied to the empty body (every
field `undefined`, hence falsy). -/
theorem C2_validators_total_witness :
    validateProduct [] ≠ .thrown ∧ validateUserRegistration [] ≠ .thrown :=
  C2_validators_total [] (Or.inr rfl) (Or.inr rfl) (Or.inr rfl) (Or.inr rfl) (Or.inr rfl)

theorem validateProduct_bad_price (b : Body)
    (ht : strOrFalsy (bget "title" b)) (hp : badPrice (bget "price" b)) :
    ∃ m, validateProduct b = .reject 400 m := by
  rcases ht with ⟨t, htt⟩ | htt
  · simp only [validateProduct, htt]
    by_cases h1 : truthy (JSValue.str t) = true
    · rw [if_neg (not_not_intro h1)]
      by_cases h2 : jsTrim t = ""
      · rw [if_pos h2]
        exact ⟨_, rfl⟩
      · rw [if_neg h2]
        by_cases h3 : bget "price" b = JSValue.undef ∨ bget "price" b = JSValue.null
        · rw [if_pos h3]
          exact ⟨_, rfl⟩
        · have hp2 : (toNumber (bget "price" b)).isNaN = true ∨
              (toNumber (bget "price" b)).ltC 0 = true := hp
          rw [if_neg h3, if_pos hp2]
          exact ⟨_, rfl⟩
    · rw [if_pos h1]
      exact ⟨_, rfl⟩
  · simp only [validateProduct, if_pos (truthy_false_not htt)]
    exact ⟨_, rfl⟩

/-- C3 counterexample: a body whose price is negative (-3) but whose title
is the number 5 makes the product-create pipeline answer 500 (the
validator throws at `title.trim()` before reaching the price check), not
the claimed 400 ValidationError — though storage is still untouched. -/
theorem C3_counterexample :
    respStatus (postProducts 1 false (some "Bearer tok") cverify
      [("title", .numv (.num 5 0)), ("price", .numv (.num (-3) 0))] "p1" cdb).1 = 500 ∧
    (toNumber (bget "price"
      ([("title", .numv (.num 5 0)), ("price", .numv (.num (-3) 0))] : Body))).ltC 0 = true := by
  exact ⟨by decide, by decide⟩

/-- C3 amended: for every authenticated, non-rate-limited product create
or update request whose `title` field is a string or falsy (so the
validator cannot throw) and whose price is negative or non-numeric (its
`Number` coercion is NaN or negative), both operations answer 400, issue
no product storage operation beyond the authentication lookup, and leave
the store unchanged; when the title is instead a truthy non-string the
response is 500, still without any storage write. -/
theorem C3_bad_price_rejected (readyState : Nat) (hdr : Option String)
    (verify : String → Option Decoded) (body : Body) (newId idp : String) (st : DB)
    (uid em rl : String) (aops : List StorageOp)
    (hauth : verifyAuth hdr verify st.users = (.ok uid em rl, aops))
    (ht : strOrFalsy (bget "title" body)) (hp : badPrice (bget "price" body)) :
    respStatus (postProducts readyState false hdr verify body newId st).1 = 400 ∧
    (postProducts readyState false hdr verify body newId st).2 = (aops, st) ∧
    respStatus (putProduct readyState false hdr verify idp body st).1 = 400 ∧
    (putProduct readyState false hdr verify idp body st).2 = (aops, st) := by
  obtain ⟨m, hm⟩ := validateProduct_bad_price body ht hp
  refine ⟨?_, ?_, ?_, ?_⟩ <;> simp [postProducts, putProduct, hauth, hm, respStatus]

/-- Concrete body with a valid title and a non-numeric price. -/
def cBadPriceBody : Body := [("title", .str "T"), ("price", .str "abc")]

/-- C3 witness: the amended theorem applied to an authenticated request
whose body is `{title: "T", price: "abc"}` (a non-numeric price). -/
theorem C3_bad_price_rejected_witness :
    respStatus (postProducts 1 false (some "Bearer tok") cverify cBadPriceBody "p1" cdb).1 = 400 ∧
    (postProducts 1 false (some "Bearer tok") cverify cBadPriceBody "p1" cdb).2 =
      ([.findUserById (.str "u1")], cdb) ∧
    respStatus (putProduct 1 false (some "Bearer tok") cverify "123456789012" cBadPriceBody cdb).1 = 400 ∧
    (putProduct 1 false (some "Bearer tok") cverify "123456789012" cBadPriceBody cdb).2 =
      ([.findUserById (.str "u1")], cdb) :=
  C3_bad_price_rejected 1 (some "Bearer tok") cverify cBadPriceBody "p1" "123456789012" cdb
    "u1" "jo@x.com" "user" [.findUserById (.str "u1")] (by decide)
    (Or.inl ⟨"T", rfl⟩) (Or.inl (by decide))

/-- C4: a bearer token whose cryptographic verification succeeds (the
oracle returns a decoded payload — i.e. the signature checks against the
shared secret and it is unexpired) but whose embedded user id matches no
stored user fails authentication with 401 "Unauthorized: User not found",
and on POST /products the downstream validation/handler is never invoked:
the response is that 401, the only storage operation is the user lookup,
and the store is unchanged. -/
theorem C4_stale_token_rejected (readyState : Nat) (h tok : String)
    (verify : String → Option Decoded) (d : Decoded) (body : Body) (newId : String) (st : DB)
    (hstart : jsStartsWith h "Bearer " = true)
    (hsplit : (jsSplitOn ' ' h).getD 1 "" = tok)
    (htok : tok ≠ "")
    (hver : verify tok = some d)
    (huser : findUserByIdVal st.users (jsOr d.id d.sub) = none) :
    verifyAuth (some h) verify st.users =
      (.unauthorized "Unauthorized: User not found", [.findUserById (jsOr d.id d.sub)]) ∧
    postProducts readyState false (some h) verify body newId st =
      (.msg 401 "Unauthorized: User not found", [.findUserById (jsOr d.id d.sub)], st) := by
  have hva : verifyAuth (some h) verify st.users =
      (.unauthorized "Unauthorized: User not found", [.findUserById (jsOr d.id d.sub)]) := by
    simp only [verifyAuth, hstart, hsplit]
    simp [htok, hver, huser]
  exact ⟨hva, by simp [postProducts, hva]⟩

/-- Verification oracle whose token "tok" decodes to a subject id with no
stored user record ("ghost"). -/
def gverify : String → Option Decoded :=
  fun t => if t = "tok" then some ⟨.str "ghost", .undef⟩ else none

/-- C4 witness: the theorem applied to the header "Bearer tok", the ghost
oracle and the store whose only user is "u1". -/
theorem C4_stale_token_rejected_witness :
    verifyAuth (some "Bearer tok") gverify cdb.users =
      (.unauthorized "Unauthorized: User not found",
        [.findUserById (jsOr (JSValue.str "ghost") .undef)]) ∧
    postProducts 1 false (some "Bearer tok") gverify cGoodBody "p1" cdb =
      (.msg 401 "Unauthorized: User not found",
        [.findUserById (jsOr (JSValue.str "ghost") .undef)], cdb) :=
  C4_stale_token_rejected 1 "Bearer tok" "tok" gverify ⟨.str "ghost", .undef⟩ cGoodBody "p1" cdb
    (by decide) (by decide) (by decide) (by decide) (by decide)

theorem ite_eq_accept_elim {c : Prop} [Decidable c] {A B : VRes} {b : Body}
    (h : (if c then A else B) = .accept b) : (c ∧ A = .accept b) ∨ (¬c ∧ B = .accept b) := by
  by_cases hc : c
  · rw [if_pos hc] at h
    exact Or.inl ⟨hc, h⟩
  · rw [if_neg hc] at h
    exact Or.inr ⟨hc, h⟩

theorem val_reg_email_inv (body b : Body) (ns es : String)
    (hn : bget "name" body = .str ns)
    (he : bget "email" body = .str es)
    (h : validateUserRegistration body = .accept b) :
    bget "email" b = .str (jsToLower (jsTrim es)) := by
  simp only [validateUserRegistration, hn, he] at h
  iterate 10 (rcases ite_eq_accept_elim h with ⟨_, h2⟩ | ⟨_, h⟩ <;> try cases h2)
  injection h with hb
  rw [← hb, bget_bset_same]

/-- C5: a registration request (not rate limited) that passes validation
and whose supplied email equals a stored user's email up to letter case
(and surrounding whitespace, which the validator trims) is answered 400
"User already exists"; the only storage operation is the duplicate
pre-check lookup and the user collection is unchanged — no user is
inserted.  The hypothesis `hlower` is the spec's data-model invariant that
stored emails are lowercase (every stored user is created through this
same validator, which lowercases). -/
theorem C5_duplicate_email (readyState : Nat) (body b : Body) (nm es : String)
    (hash : JSValue → String) (enc : String → String) (newId : String) (st : DB)
    (hn : bget "name" body = .str nm)
    (he : bget "email" body = .str es)
    (hval : validateUserRegistration body = .accept b)
    (hlower : ∀ u ∈ st.users, jsToLower u.email = u.email)
    (hconf : ∃ u ∈ st.users, jsToLower u.email = jsToLower (jsTrim es)) :
    registerUser readyState false body hash enc newId st =
      (.msg 400 "User already exists", [.findUserByEmail (.str (jsToLower (jsTrim es)))], st) := by
  have hemail := val_reg_email_inv body b nm es hn he hval
  obtain ⟨u, hu, hue⟩ := hconf
  have hueq : u.email = jsToLower (jsTrim es) := by
    rw [← hlower u hu, hue]
  have hsome : (st.users.find? (fun u' => u'.email = jsToLower (jsTrim es))).isSome := by
    rw [List.find?_isSome]
    exact ⟨u, hu, by simp [hueq]⟩
  obtain ⟨u0, hu0⟩ := Option.isSome_iff_exists.mp hsome
  simp only [registerUser, hval, hemail]
  simp [hu0]

/-- Concrete registration body whose email is a case variant of the
stored one. -/
def cRegBody : Body :=
  [("name", .str "Jo"), ("email", .str "A@B.com"), ("password", .str "secret")]

/-- Concrete store holding one user with the lowercase email. -/
def cdb5 : DB := ⟨[], [⟨"u2", "Jo", "a@b.com", "h", none, ""⟩]⟩

/-- C5 witness: registering "A@B.com" against a store containing
"a@b.com" hits the duplicate branch. -/
theorem C5_duplicate_email_witness :
    registerUser 1 false cRegBody (fun _ => "H") (fun s => s) "u9" cdb5 =
      (.msg 400 "User already exists",
        [.findUserByEmail (.str (jsToLower (jsTrim "A@B.com")))], cdb5) :=
  C5_duplicate_email 1 cRegBody
    [("name", .str "Jo"), ("email", .str "a@b.com"), ("password", .str "secret")]
    "Jo" "A@B.com" (fun _ => "H") (fun s => s) "u9" cdb5
    (by decide) (by decide) (by decide) (by decide) (by decide)

theorem validateProduct_accept_shape (body b : Body)
    (h : validateProduct body = .accept b) :
    ∃ t d i p, b = bset "price" p (bset "image" i (bset "description" d (bset "title" t body))) := by
  simp only [validateProduct] at h
  rcases ite_eq_accept_elim h with ⟨_, h2⟩ | ⟨_, h⟩
  · cases h2
  cases hbt : bget "title" body <;> simp only [hbt] at h <;> try cases h
  rename_i ts
  iterate 4 (rcases ite_eq_accept_elim h with ⟨_, h2⟩ | ⟨_, h⟩ <;> try cases h2)
  cases hbd : bget "description" body <;> simp only [hbd] at h <;> try cases h
  rename_i ds
  iterate 2 (rcases ite_eq_accept_elim h with ⟨_, h2⟩ | ⟨_, h⟩ <;> try cases h2)
  cases hbi : bget "image" body <;> simp only [hbi] at h <;> try cases h
  rename_i img
  iterate 4 (rcases ite_eq_accept_elim h with ⟨_, h2⟩ | ⟨_, h⟩ <;> try cases h2)
  injection h with hb
  exact ⟨_, _, _, _, hb.symm⟩

/-- C9: when `validateProduct` accepts, the resulting body is the input
body with only the `title`, `description`, `image` and `price` bindings
rewritten — every other property reads back unchanged — and the POST
/products handler saves exactly that body into the store (201, one
`saveProduct` operation after the authentication lookup). -/
theorem C9_validator_frame (readyState : Nat) (hdr : Option String)
    (verify : String → Option Decoded) (body b : Body) (newId : String) (st : DB)
    (uid em rl : String) (aops : List StorageOp) (k : String)
    (hauth : verifyAuth hdr verify st.users = (.ok uid em rl, aops))
    (hval : validateProduct body = .accept b)
    (hk1 : k ≠ "title") (hk2 : k ≠ "description") (hk3 : k ≠ "image") (hk4 : k ≠ "price") :
    bget k b = bget k body ∧
    postProducts readyState false hdr verify body newId st =
      (.pdoc 201 newId b, aops ++ [.saveProduct b],
        { st with products := st.products ++ [(newId, b)] }) := by
  obtain ⟨t, d, i, p, hb⟩ := validateProduct_accept_shape body b hval
  constructor
  · rw [hb, bget_bset_ne _ _ _ _ (Ne.symm hk4), bget_bset_ne _ _ _ _ (Ne.symm hk3),
      bget_bset_ne _ _ _ _ (Ne.symm hk2), bget_bset_ne _ _ _ _ (Ne.symm hk1)]
  · simp [postProducts, hauth, hval]

/-- C9 witness: the frame theorem applied to the concrete body carrying
the extra `brand` field, which reaches the stored document unchanged. -/
theorem C9_validator_frame_witness :
    bget "brand" cGoodBodyV = bget "brand" cGoodBody ∧
    postProducts 1 false (some "Bearer tok") cverify cGoodBody "p1" cdb =
      (.pdoc 201 "p1" cGoodBodyV, [.findUserById (.str "u1"), .saveProduct cGoodBodyV],
        { cdb with products := cdb.products ++ [("p1", cGoodBodyV)] }) :=
  C9_validator_frame 1 (some "Bearer tok") cverify cGoodBody cGoodBodyV "p1" cdb
    "u1" "jo@x.com" "user" [.findUserById (.str "u1")] "brand"
    (by decide) (by decide) (by decide) (by decide) (by decide) (by decide)

/-- C10: on GET /products with the connection ready, an absent or empty
`search` query returns the full product collection (the code's `if
(search)` treats the empty string as absent), and a non-empty `search`
returns exactly the products whose title matches the search string as a
case-insensitive regular-expression pattern (per the store's `$regex`
semantics, in which metacharacters such as `.` are interpreted, not
matched literally). -/
theorem C10_search_filter (rs : Nat → Nat) (search : Option String) (st : DB)
    (hready : rs 0 = 1) :
    ((search = none ∨ search = some "") →
      getProducts rs search st = (.plist 200 st.products, [.findProducts none])) ∧
    (∀ s, search = some s → s ≠ "" →
      getProducts rs search st =
        (.plist 200 (st.products.filter (fun p => titleMatches s p.2)), [.findProducts (some s)])) := by
  have ha : pollLoop rs 10 0 = 0 := by
    unfold pollLoop
    simp [hready]
  constructor
  · rintro (rfl | rfl) <;> simp [getProducts, ha, hready]
  · rintro s rfl hs
    simp [getProducts, ha, hready, hs]

/-- Concrete two-product store: the pattern "s.ny" (with the `.`
metacharacter) matches the title "Sony X" case-insensitively and not
"Mouse". -/
def cdb10 : DB :=
  ⟨[("p1", [("title", .str "Sony X")]), ("p2", [("title", .str "Mouse")])], []⟩

/-- C10 witness: the theorem applied to the two-product store with the
metacharacter pattern "s.ny". -/
theorem C10_search_filter_witness :
    ((some "s.ny" = none ∨ (some "s.ny" : Option String) = some "") →
      getProducts (fun _ => 1) (some "s.ny") cdb10 =
        (.plist 200 cdb10.products, [.findProducts none])) ∧
    (∀ s, some "s.ny" = some s → s ≠ "" →
      getProducts (fun _ => 1) (some "s.ny") cdb10 =
        (.plist 200 (cdb10.products.filter (fun p => titleMatches s p.2)),
          [.findProducts (some s)])) :=
  C10_search_filter (fun _ => 1) (some "s.ny") cdb10 rfl

/-- C1 counterexample: with the connection state 0 (disconnected), a valid
authenticated POST /products request still executes its storage write
(the `saveProduct` operation is issued) and answers 201 — the handler
performs no readiness check and never returns 503, refuting the claim for
POST (and likewise PUT/DELETE/register, covered by the amended theorem). -/
theorem C1_counterexample :
    respStatus (postProducts 0 false (some "Bearer tok") cverify cGoodBody "p1" cdb).1 = 201 ∧
    (postProducts 0 false (some "Bearer tok") cverify cGoodBody "p1" cdb).2.1 =
      [.findUserById (.str "u1"), .saveProduct cGoodBodyV] := by
  exact ⟨by decide, by decide⟩

/-- C1 amended: only the two GET handlers gate on storage readiness —
GET /products polls a bounded number of times and answers 503 with no
storage operation when the connection never becomes ready, and
GET /products/:id answers 503 with no storage operation on a single
readiness check; the four mutating routes (POST /products,
PUT /products/:id, DELETE /products/:id, POST /register) never consult
the connection state and issue their storage operations regardless of it
(here under the same not-ready state). -/
theorem C1_gate_only_on_get (rs : Nat → Nat) (readyState : Nat) (search : Option String)
    (idp : String) (hdr : Option String) (verify : String → Option Decoded)
    (body b rbody rb : Body) (re : String) (newId : String) (st : DB)
    (uid em rl : String) (aops : List StorageOp)
    (hash : JSValue → String) (enc : String → String)
    (hnever : ∀ i, rs i ≠ 1) (hrdy : readyState ≠ 1)
    (hauth : verifyAuth hdr verify st.users = (.ok uid em rl, aops))
    (hval : validateProduct body = .accept b)
    (hvalr : validateUserRegistration rbody = .accept rb)
    (hre : bget "email" rb = .str re)
    (hid : isValidObjectId idp = true) :
    getProducts rs search st =
      (.msg 503 "Database connection unavailable. Please try again later.", []) ∧
    getProductById readyState idp st =
      (.msg 503 "Database connection unavailable. Please try again later.", []) ∧
    (postProducts readyState false hdr verify body newId st).2.1 = aops ++ [.saveProduct b] ∧
    (putProduct readyState false hdr verify idp body st).2.1 = aops ++ [.updateProductById idp b] ∧
    (deleteProduct readyState false hdr verify idp st).2.1 = aops ++ [.deleteProductById idp] ∧
    (registerUser readyState false rbody hash enc newId st).2.1 ≠ [] := by
  refine ⟨?_, ?_, ?_, ?_, ?_, ?_⟩
  · simp only [getProducts]
    rw [if_pos (hnever _)]
  · simp [getProductById, hrdy]
  · simp [postProducts, hauth, hval]
  · cases hfind : st.products.find? (fun p => p.1 = idp) <;>
      simp [putProduct, hauth, hval, hid, hfind]
  · cases hfind : st.products.find? (fun p => p.1 = idp) <;>
      simp [deleteProduct, hauth, hid, hfind]
  · simp only [registerUser, hvalr, hre]
    cases hfind : st.users.find? (fun u => u.email = re) <;> simp [hfind]

/-- C1 witness: the amended theorem applied with a never-ready connection
trace, readyState 0, and concrete authenticated/validated requests. -/
theorem C1_gate_only_on_get_witness :
    getProducts (fun _ => 0) none cdb =
      (.msg 503 "Database connection unavailable. Please try again later.", []) ∧
    getProductById 0 "123456789012" cdb =
      (.msg 503 "Database connection unavailable. Please try again later.", []) ∧
    (postProducts 0 false (some "Bearer tok") cverify cGoodBody "x1" cdb).2.1 =
      [.findUserById (.str "u1")] ++ [.saveProduct cGoodBodyV] ∧
    (putProduct 0 false (some "Bearer tok") cverify "123456789012" cGoodBody cdb).2.1 =
      [.findUserById (.str "u1")] ++ [.updateProductById "123456789012" cGoodBodyV] ∧
    (deleteProduct 0 false (some "Bearer tok") cverify "123456789012" cdb).2.1 =
      [.findUserById (.str "u1")] ++ [.deleteProductById "123456789012"] ∧
    (registerUser 0 false cRegBody (fun _ => "H") (fun s => s) "x1" cdb).2.1 ≠ [] :=
  C1_gate_only_on_get (fun _ => 0) 0 none "123456789012" (some "Bearer tok") cverify
    cGoodBody cGoodBodyV cRegBody
    [("name", .str "Jo"), ("email", .str "a@b.com"), ("password", .str "secret")]
    "a@b.com" "x1" cdb "u1" "jo@x.com" "user" [.findUserById (.str "u1")]
    (fun _ => "H") (fun s => s)
    (fun _ => Nat.zero_ne_one) (Nat.zero_ne_one)
    (by decide) (by decide) (by decide) (by decide) (by decide)
